import Mathlib

/-!
Verification development for the ccoe-chat-ops-aks asynchronous
job-completion delivery subsystem.  The definitions below are a shallow
embedding of the TypeScript sources:

* `src/server/src/routes/webhook.ts` — Express Update Ingress
  (`router.post('/update')`), polling endpoint (`router.get('/status/:runID')`)
  and push stream (`router.get('/stream/:runID')`);
* `src/supabase/functions/webhook-update/index.ts` — Deno edge-function
  variant of Update Ingress and polling;
* `src/src/lib/api.ts` — client `pollForResult` (plain polling variant) and
  the SSE-variant `sendChatMessage` status classification;
* `src/unnamed/part_003` — client poll loop with normalized status synonyms;
* `src/aks-deploy/src/hooks/useChat.ts` — client orchestrator completion
  handler `handleSSEUpdate`.

JavaScript `Map`s are modelled as association lists, JS string truthiness
(`undefined`/`''` falsy) as `strTruthy` on `Option String`, and fallible
HTTP handlers return explicit response records.
-/

namespace ChatOps

/-- JS truthiness of an optional string value: `undefined`, `null` and the
empty string are falsy, every other string is truthy. -/
def strTruthy : Option String → Bool
  | none => false
  | some s => if s = "" then false else true

/-- JS `a || b` on two optional strings: `a` when truthy, else `b`. -/
def jsOrOpt (a b : Option String) : Option String :=
  if strTruthy a then a else b

/-- `Map.get`: first binding for the key, if any. -/
def mapGet {α : Type} : List (String × α) → String → Option α
  | [], _ => none
  | (k, v) :: rest, key => if k = key then some v else mapGet rest key

/-- `Map.set`: replace the binding for the key, or append a new one. -/
def mapSet {α : Type} : List (String × α) → String → α → List (String × α)
  | [], key, v => [(key, v)]
  | (k, w) :: rest, key, v =>
      if k = key then (key, v) :: rest else (k, w) :: mapSet rest key v

/-- `Map.delete`: drop every binding for the key. -/
def mapDelete {α : Type} (m : List (String × α)) (key : String) : List (String × α) :=
  m.filter (fun p => p.1 ≠ key)

theorem mapGet_mapSet_self {α : Type} (m : List (String × α)) (k : String) (v : α) :
    mapGet (mapSet m k v) k = some v := by
  induction m with
  | nil => simp [mapSet, mapGet]
  | cons hd tl ih =>
    by_cases h : hd.1 = k
    · simp [mapSet, mapGet, h]
    · simpa [mapSet, mapGet, h] using ih

theorem mapGet_mapDelete_self {α : Type} (m : List (String × α)) (k : String) :
    mapGet (mapDelete m k) k = none := by
  induction m with
  | nil => simp [mapDelete, mapGet]
  | cons hd tl ih =>
    by_cases h : hd.1 = k
    · simpa [mapDelete, mapGet, h] using ih
    · simpa [mapDelete, mapGet, h] using ih

/-! ### Express webhook (`src/server/src/routes/webhook.ts`) -/

/-- Special key for broadcast updates (`BROADCAST_KEY = '__broadcast__'`). -/
def BROADCAST_KEY : String := "__broadcast__"

/-- One entry of the in-memory `jobUpdates` map:
`{ status: string; answer?: string; pipelineID?: string }`. -/
structure JobRecord where
  status : String
  answer : Option String
  pipelineID : Option String
deriving Repr, DecidableEq

/-- The `sseClients` map: per key, the list of connected SSE clients
(clients are identified by a number in the model). -/
abbrev Registry : Type := List (String × List Nat)

/-- `sseClients.get(k) || []`. -/
def registryGet (r : Registry) (k : String) : List Nat :=
  (mapGet r k).getD []

/-- `clients.push(res); sseClients.set(k, clients)` for a newly connected
client. -/
def registryAdd (r : Registry) (k : String) (c : Nat) : Registry :=
  mapSet r k (registryGet r k ++ [c])

/-- Body of `POST /api/webhook/update`:
`const { runID, pipelineID, status: rawStatus, answer } = req.body`. -/
structure UpdateBody where
  runID : Option String := none
  pipelineID : Option String := none
  status : Option String := none
  answer : Option String := none
deriving Repr, DecidableEq

/-- `const status = rawStatus || (answer ? 'completed' : 'pending')`. -/
def statusOrDefault (rawStatus answer : Option String) : String :=
  if strTruthy rawStatus then rawStatus.getD ""
  else if strTruthy answer then "completed" else "pending"

/-- The terminal-status test used throughout `webhook.ts`:
`status === 'completed' || status === 'error'` (exact string equality). -/
def expressTerminal (status : String) : Bool :=
  status = "completed" || status = "error"

/-- The `update` object fanned out to SSE clients:
`{ status, answer, pipelineID, runID: runID || null }`. -/
structure UpdatePayload where
  status : String
  answer : Option String
  pipelineID : Option String
  runID : Option String
deriving Repr, DecidableEq

/-- Builds the fan-out payload of `router.post('/update')`. -/
def mkPayload (body : UpdateBody) : UpdatePayload :=
  ⟨statusOrDefault body.status body.answer, body.answer, body.pipelineID,
    if strTruthy body.runID then body.runID else none⟩

/-- Result of one `POST /update` call: the new `jobUpdates` map, the new
`sseClients` map, the list of deliveries `(client, payload, connection
closed?)`, the scheduled `jobUpdates.delete` timer `(runID, delay ms)` if
any, and the HTTP response. -/
structure UpdateResult where
  store : List (String × JobRecord)
  registry : Registry
  delivered : List (Nat × UpdatePayload × Bool)
  cleanup : Option (String × Nat)
  httpStatus : Nat
  success : Bool
deriving Repr, DecidableEq

/-- Shallow embedding of `router.post('/update')` in
`src/server/src/routes/webhook.ts` (lines 26–96).  A missing or empty
`runID` means broadcast; the update is stored only when `runID` is truthy;
job-specific clients are closed (and the registry entry deleted, plus a 60s
store cleanup scheduled) exactly when the status is terminal. -/
def handleUpdate (jobUpdates : List (String × JobRecord)) (sseClients : Registry)
    (body : UpdateBody) : UpdateResult :=
  let status := statusOrDefault body.status body.answer
  let isBroadcast := !(strTruthy body.runID)
  let runID := body.runID.getD ""
  let update := mkPayload body
  let store' :=
    if strTruthy body.runID then
      mapSet jobUpdates runID ⟨status, body.answer, body.pipelineID⟩
    else jobUpdates
  let clients := registryGet sseClients (if isBroadcast then BROADCAST_KEY else runID)
  let closeEach := !isBroadcast && expressTerminal status
  let delivered := clients.map (fun c => (c, update, closeEach))
  let registry' :=
    if !isBroadcast && expressTerminal status then mapDelete sseClients runID
    else sseClients
  let cleanup :=
    if !isBroadcast && expressTerminal status then some (runID, 60000) else none
  ⟨store', registry', delivered, cleanup, 200, true⟩

/-- The `{ status: 'pending' }` default of the polling endpoint. -/
def pendingRecord : JobRecord := ⟨"pending", none, none⟩

/-- Shallow embedding of `router.get('/status/:runID')` (lines 102–112):
returns the stored update if present, else `{ status: 'pending' }`; the
handler only reads `jobUpdates`, so the store is returned unchanged. -/
def statusHandler (jobUpdates : List (String × JobRecord)) (runID : String) :
    JobRecord × List (String × JobRecord) :=
  match mapGet jobUpdates runID with
  | none => (pendingRecord, jobUpdates)
  | some update => (update, jobUpdates)

/-- Result of opening `GET /stream/:runID`: events written on accept,
whether the response was ended immediately, and the registry afterwards. -/
structure StreamResult where
  sent : List JobRecord
  closed : Bool
  registry : Registry
deriving Repr, DecidableEq

/-- Shallow embedding of `router.get('/stream/:runID')` (lines 119–148):
for a non-broadcast key, an existing stored update is written immediately;
if it is terminal the response is ended without registering the client;
otherwise the client is registered under the target key. -/
def streamOpen (jobUpdates : List (String × JobRecord)) (sseClients : Registry)
    (client : Nat) (runID : String) : StreamResult :=
  let targetKey := if runID = "broadcast" then BROADCAST_KEY else runID
  if targetKey ≠ BROADCAST_KEY then
    match mapGet jobUpdates runID with
    | some existingUpdate =>
      if expressTerminal existingUpdate.status then
        ⟨[existingUpdate], true, sseClients⟩
      else
        ⟨[existingUpdate], false, registryAdd sseClients targetKey client⟩
    | none => ⟨[], false, registryAdd sseClients targetKey client⟩
  else
    ⟨[], false, registryAdd sseClients targetKey client⟩

/-! ### Edge-function webhook (`src/supabase/functions/webhook-update/index.ts`) -/

/-- POST body of the edge function:
`const { runID, runId, pipelineID, pipelineId, status, answer, meta, error } = body`.
The free-form `meta` bag is carried as an opaque optional string. -/
structure EdgeBody where
  runID : Option String := none
  runId : Option String := none
  pipelineID : Option String := none
  pipelineId : Option String := none
  status : Option String := none
  answer : Option String := none
  meta : Option String := none
  error : Option String := none
deriving Repr, DecidableEq

/-- One entry of the edge function's `jobUpdates` map
(`{ status, answer, runID, pipelineID, meta, error }`). -/
structure EdgeRecord where
  status : String
  answer : Option String
  runID : Option String
  pipelineID : Option String
  meta : Option String
  error : Option String
deriving Repr, DecidableEq

/-- HTTP response of the edge function handler. -/
structure EdgeResponse where
  httpStatus : Nat
  errorMsg : Option String
deriving Repr, DecidableEq

/-- Result of one edge-function POST: store afterwards, scheduled cleanup
timer `(runID, delay ms)` and the response. -/
structure EdgeResult where
  store : List (String × EdgeRecord)
  cleanup : Option (String × Nat)
  response : EdgeResponse
deriving Repr, DecidableEq

/-- Shallow embedding of the POST branch of `Deno.serve` in
`src/supabase/functions/webhook-update/index.ts` (lines 30–75):
normalizes `runID || runId`, rejects with 400 when no run identifier or no
status is present, otherwise stores the update and schedules a 5-minute
cleanup for terminal statuses. -/
def edgeHandleUpdate (jobUpdates : List (String × EdgeRecord)) (body : EdgeBody) :
    EdgeResult :=
  let normalizedRunID := jsOrOpt body.runID body.runId
  let normalizedPipelineID := jsOrOpt body.pipelineID body.pipelineId
  if !(strTruthy normalizedRunID) then
    ⟨jobUpdates, none, ⟨400, some "runID is required"⟩⟩
  else if !(strTruthy body.status) then
    ⟨jobUpdates, none, ⟨400, some "status is required"⟩⟩
  else
    let runKey := normalizedRunID.getD ""
    let status := body.status.getD ""
    let update : EdgeRecord :=
      ⟨status, body.answer, normalizedRunID, normalizedPipelineID, body.meta, body.error⟩
    let store' := mapSet jobUpdates runKey update
    let cleanup :=
      if status = "completed" || status = "error" then some (runKey, 300000) else none
    ⟨store', cleanup, ⟨200, none⟩⟩

/-- The `{ status: 'pending' }` default of the edge polling branch. -/
def edgePendingRecord : EdgeRecord := ⟨"pending", none, none, none, none, none⟩

/-- Shallow embedding of the GET `/status/:runID` branch of the edge
function (lines 77–96): stored update or `{ status: 'pending' }`; reads
only. -/
def edgeStatusHandler (jobUpdates : List (String × EdgeRecord)) (runID : String) :
    EdgeRecord × List (String × EdgeRecord) :=
  match mapGet jobUpdates runID with
  | none => (edgePendingRecord, jobUpdates)
  | some update => (update, jobUpdates)

/-! ### Client polling (`src/src/lib/api.ts` lines 79–122, identical loop in
`src/unnamed/part_005`) -/

/-- `POLL_INTERVAL_MS = 2000` — poll every 2 seconds. -/
def POLL_INTERVAL_MS : Nat := 2000

/-- `MAX_POLL_ATTEMPTS = 300` — max 10 minutes (300 × 2s). -/
def MAX_POLL_ATTEMPTS : Nat := 300

/-- The timeout failure thrown after the attempt budget is exhausted. -/
def TIMEOUT_MSG : String := "Request timed out waiting for response"

/-- Outcome of one poll attempt as seen by the client: `netFail` covers a
thrown `fetch` or a non-2xx response (`!response.ok`); `resp` is a parsed
`PollResponse` body `{ status, answer?, error? }`. -/
inductive PollOutcome where
  | netFail
  | resp (status : String) (answer : Option String) (error : Option String)
deriving Repr, DecidableEq

/-- What one iteration of the `pollForResult` loop body does with an
attempt.  `some a`: the `data.status === 'completed' && data.answer` branch
returns answer `a`.  `none`: every other path — network failure caught and
retried, `status === 'error'` whose `throw` is caught by the surrounding
`catch` and retried, or a still-pending status — falls through to the next
attempt after the 2s sleep. -/
def pollAttempt : PollOutcome → Option String
  | .netFail => none
  | .resp status answer _err =>
      if status = "completed" && strTruthy answer then answer else none

/-- The `while (attempts < MAX_POLL_ATTEMPTS)` loop of `pollForResult`,
with explicit remaining fuel and current attempt index over a stream `f` of
attempt outcomes.  Exhaustion throws the timeout error. -/
def pollLoop (f : Nat → PollOutcome) : Nat → Nat → Except String String
  | 0, _ => .error TIMEOUT_MSG
  | fuel + 1, i =>
      match pollAttempt (f i) with
      | some a => .ok a
      | none => pollLoop f fuel (i + 1)

/-- Shallow embedding of `pollForResult` from `src/src/lib/api.ts`: runs at
most `MAX_POLL_ATTEMPTS` attempts starting from attempt 0. -/
def pollForResult (f : Nat → PollOutcome) : Except String String :=
  pollLoop f MAX_POLL_ATTEMPTS 0

theorem pollLoop_error_msg (f : Nat → PollOutcome) :
    ∀ fuel i e, pollLoop f fuel i = .error e → e = TIMEOUT_MSG := by
  intro fuel
  induction fuel with
  | zero =>
    intro i e h
    simpa [pollLoop] using h.symm
  | succ fuel ih =>
    intro i e h
    cases hp : pollAttempt (f i) with
    | none =>
      exact ih (i + 1) e (by simpa [pollLoop, hp] using h)
    | some a =>
      simp [pollLoop, hp] at h

theorem pollLoop_all_fail (f : Nat → PollOutcome) :
    ∀ fuel i, (∀ j, i ≤ j → j < i + fuel → pollAttempt (f j) = none) →
      pollLoop f fuel i = .error TIMEOUT_MSG := by
  intro fuel
  induction fuel with
  | zero => intro i _; simp [pollLoop]
  | succ fuel ih =>
    intro i h
    have h0 : pollAttempt (f i) = none := h i (Nat.le_refl i) (by omega)
    have hrest : ∀ j, i + 1 ≤ j → j < (i + 1) + fuel → pollAttempt (f j) = none := by
      intro j hj1 hj2
      exact h j (by omega) (by omega)
    simp [pollLoop, h0, ih (i + 1) hrest]

theorem pollLoop_first_success (f : Nat → PollOutcome) :
    ∀ fuel i k a, k < fuel → (∀ j, i ≤ j → j < i + k → pollAttempt (f j) = none) →
      pollAttempt (f (i + k)) = some a → pollLoop f fuel i = .ok a := by
  intro fuel
  induction fuel with
  | zero => intro i k a hk; omega
  | succ fuel ih =>
    intro i k a hk hnone hsome
    cases k with
    | zero =>
      simp at hsome
      simp [pollLoop, hsome]
    | succ k =>
      have h0 : pollAttempt (f i) = none := hnone i (Nat.le_refl i) (by omega)
      have hrest : ∀ j, i + 1 ≤ j → j < (i + 1) + k → pollAttempt (f j) = none := by
        intro j hj1 hj2
        exact hnone j (by omega) (by omega)
      have hs : pollAttempt (f ((i + 1) + k)) = some a := by
        have : (i + 1) + k = i + (k + 1) := by omega
        simpa [this] using hsome
      simp [pollLoop, h0, ih (i + 1) k a (by omega) hrest hs]

theorem pollLoop_ok_inv (f : Nat → PollOutcome) :
    ∀ fuel i a, pollLoop f fuel i = .ok a →
      ∃ j, i ≤ j ∧ j < i + fuel ∧ pollAttempt (f j) = some a := by
  intro fuel
  induction fuel with
  | zero => intro i a h; simp [pollLoop] at h
  | succ fuel ih =>
    intro i a h
    cases hp : pollAttempt (f i) with
    | some b =>
      have hb : b = a := by simpa [pollLoop, hp] using h
      exact ⟨i, Nat.le_refl i, by omega, by simpa [hb] using hp⟩
    | none =>
      obtain ⟨j, hj1, hj2, hj3⟩ := ih (i + 1) a (by simpa [pollLoop, hp] using h)
      exact ⟨j, by omega, by omega, hj3⟩

theorem pollAttempt_some_inv (o : PollOutcome) (a : String)
    (h : pollAttempt o = some a) :
    ∃ e, o = PollOutcome.resp "completed" (some a) e ∧ a ≠ "" := by
  cases o with
  | netFail => simp [pollAttempt] at h
  | resp status answer err =>
    by_cases hc : (status = "completed" && strTruthy answer) = true
    · have hans : answer = some a := by simpa [pollAttempt, hc] using h
      have hst : status = "completed" := by
        simpa using (Bool.and_elim_left hc)
      have htr : strTruthy answer = true := by
        simpa using (Bool.and_elim_right hc)
      refine ⟨err, by rw [hst, hans], ?_⟩
      intro hempty
      rw [hans, hempty] at htr
      simp [strTruthy] at htr
    · simp [pollAttempt, hc] at h

/-! ### Status classification in the client variants -/

/-- Character-list model of JS `String.prototype.toLowerCase` (the statuses
involved are ASCII, where `Char.toLower` agrees with JS). -/
def lowerString (s : String) : String :=
  ⟨s.data.map Char.toLower⟩

/-- The whitespace class trimmed and stripped by the client normalizations
(the relevant JS `\s` characters). -/
def isJsSpace (c : Char) : Bool :=
  c = ' ' || c = '\t' || c = '\n' || c = '\r'

/-- Character-list model of JS `String.prototype.trim`. -/
def trimString (s : String) : String :=
  ⟨((s.data.dropWhile isJsSpace).reverse.dropWhile isJsSpace).reverse⟩

/-- Models the regex replace `.replace(/[\s_-]/g, '')` used by the
SSE-variant `sendChatMessage` in `src/src/lib/api.ts`: drops whitespace,
underscore and hyphen characters. -/
def stripSeparators (s : String) : String :=
  ⟨s.data.filter (fun c => !(isJsSpace c || c = '_' || c = '-'))⟩

/-- `String(status ?? '').toLowerCase().trim()` — the normalized trigger
status of the SSE-variant `sendChatMessage` (`src/src/lib/api.ts` line 296). -/
def sseNormalizedTriggerStatus (status : Option String) : String :=
  trimString (lowerString (status.getD ""))

/-- `normalizedStatus === 'inprogress'` after separator stripping
(`src/src/lib/api.ts` lines 301–302). -/
def sseIsInProgress (status : Option String) : Bool :=
  stripSeparators (sseNormalizedTriggerStatus status) = "inprogress"

/-- `errorStatuses = new Set(['error', 'failed', 'failure'])` membership
test applied to the normalized trigger status (`src/src/lib/api.ts`
lines 304–306). -/
def sseIsErrorStatus (status : Option String) : Bool :=
  let n := sseNormalizedTriggerStatus status
  n = "error" || n = "failed" || n = "failure"

/-- `String(data.status ?? '').toLowerCase()` — the status normalization in
the poll loop of `src/unnamed/part_003` (line 193). -/
def part3NormalizedStatus (status : Option String) : String :=
  lowerString (status.getD "")

/-- The completed-acceptance test of the `part_003` poll loop (line 195):
`normalizedStatus === 'completed' || 'complete' || 'done' || 'success'`. -/
def part3IsCompleted (n : String) : Bool :=
  n = "completed" || n = "complete" || n = "done" || n = "success"

/-- The error test of the `part_003` poll loop (line 223):
`normalizedStatus === 'error' || 'failed' || 'failure'`. -/
def part3IsError (n : String) : Bool :=
  n = "error" || n = "failed" || n = "failure"

/-! ### Client orchestrator completion handler
(`src/aks-deploy/src/hooks/useChat.ts`, `handleSSEUpdate`, lines 70–108; the
`src/src/hooks/useChat.ts` variant appends identically) -/

/-- An SSE update as received by the hook:
`{ status, answer?, meta?, error? }`; `metaPipelineID` holds
`update.meta?.pipelineID`. -/
structure SSEUpdate where
  status : String
  answer : Option String
  metaPipelineID : Option String
  error : Option String
deriving Repr, DecidableEq

/-- The `meta` object attached to a chat message. -/
structure MsgMeta where
  runID : Option String
  pipelineID : Option String
  status : Option String
deriving Repr, DecidableEq

/-- One conversation message (ids model the `uuidv4()` strings as numbers). -/
structure ChatMessage where
  id : Nat
  role : String
  content : String
  meta : Option MsgMeta
deriving Repr, DecidableEq

/-- Client chat state: messages, loading flag, the
`pendingJobIdsRef` map (jobId → assistant message id) and the
`activeSubscriptionsRef` set. -/
structure ChatState where
  messages : List ChatMessage
  isLoading : Bool
  pendingJobIds : List (String × Nat)
  activeSubscriptions : List String
deriving Repr, DecidableEq

/-- Models `normalizeAnswer` from the AKS `useChat` hook (lines 28–41).
`jsonParse` stands for the platform `JSON.parse` restricted to the use the
hook makes of it: it yields the parsed array of strings when the trimmed
input parses to a JSON array, and `none` when parsing throws or the result
is not an array (both of which make the hook fall back to the raw answer). -/
def normalizeAnswer (jsonParse : String → Option (List String)) :
    Option String → String
  | none => ""
  | some answer =>
      if answer = "" then ""
      else
        let trimmed := trimString answer
        if trimmed.data.head? = some '[' && trimmed.data.getLast? = some ']' then
          match jsonParse trimmed with
          | some arr => String.intercalate "\n" arr
          | none => answer
        else answer

/-- The terminal test of the hook (line 84):
`update.status === 'completed' || update.status === 'error'`. -/
def updateIsTerminal (s : String) : Bool :=
  s = "completed" || s = "error"

/-- Shallow embedding of `handleSSEUpdate` from
`src/aks-deploy/src/hooks/useChat.ts` (lines 70–108).  `newId` models the
fresh `uuidv4()` of the appended message.  Note that the hook looks up
`pendingJobIdsRef.current.get(jobId)` but never uses the result for the
message list: it unconditionally appends the completion as a new assistant
message, removing the jobId from the pending/active sets when terminal. -/
def handleSSEUpdate (jsonParse : String → Option (List String)) (newId : Nat)
    (state : ChatState) (jobId : String) (update : SSEUpdate) : ChatState :=
  let answerText := normalizeAnswer jsonParse update.answer
  let meta : MsgMeta := ⟨some jobId, update.metaPipelineID, some update.status⟩
  let pending' :=
    if updateIsTerminal update.status then
      state.pendingJobIds.filter (fun p => p.1 ≠ jobId)
    else state.pendingJobIds
  let active' :=
    if updateIsTerminal update.status then
      state.activeSubscriptions.filter (fun j => j ≠ jobId)
    else state.activeSubscriptions
  let content :=
    if update.status = "error" then
      "Error: " ++ (if strTruthy update.error then update.error.getD "" else "Workflow failed")
    else if answerText = "" then "Workflow completed" else answerText
  ⟨state.messages ++ [⟨newId, "assistant", content, some meta⟩], false, pending', active'⟩

/-! ### Claims -/

/-- C1 (counterexample): the claim "once Update Ingress has recorded a
terminal status for a job, a subsequent Update Ingress call with the same
job identifier leaves the stored Job Record unchanged" is false: with
`j1` stored as `completed` with answer `a`, a further `POST /update` with
`{runID: "j1", status: "pending"}` overwrites the record and un-terminates
the job. -/
theorem C1_counterexample :
    mapGet [("j1", (⟨"completed", some "a", none⟩ : JobRecord))] "j1"
      = some ⟨"completed", some "a", none⟩ ∧
    mapGet (handleUpdate [("j1", ⟨"completed", some "a", none⟩)] []
      ⟨some "j1", none, some "pending", none⟩).store "j1"
      = some ⟨"pending", none, none⟩ := by
  constructor
  · rfl
  · rfl

/-- C1 (amended): Update Ingress is last-writer-wins — every call carrying
a truthy run identifier unconditionally overwrites the stored Job Record
with the incoming status, answer and pipeline identifier, regardless of any
previously stored terminal state. -/
theorem C1_last_writer_wins (store : List (String × JobRecord)) (reg : Registry)
    (body : UpdateBody) (j : String) (hrun : body.runID = some j) (hj : j ≠ "") :
    mapGet (handleUpdate store reg body).store j
      = some ⟨statusOrDefault body.status body.answer, body.answer, body.pipelineID⟩ := by
  have htr : strTruthy (some j) = true := by simp [strTruthy, hj]
  simp [handleUpdate, hrun, htr, mapGet_mapSet_self]

/-- C1 witness: instantiates the last-writer-wins theorem at a concrete
store holding a terminal record for `j`. -/
theorem C1_witness :
    mapGet (handleUpdate [("j", ⟨"completed", some "old", none⟩)] []
      ⟨some "j", none, some "in_progress", some "new"⟩).store "j"
      = some ⟨"in_progress", some "new", none⟩ :=
  C1_last_writer_wins [("j", ⟨"completed", some "old", none⟩)] []
    ⟨some "j", none, some "in_progress", some "new"⟩ "j" rfl (by decide)

/-- C2: if the Job Store already holds a terminal record for a (non
broadcast-reserved) run identifier when a client opens the push stream,
the stream delivers exactly that record immediately, is closed at once,
and the client is never registered in the subscriber registry. -/
theorem C2_stream_open_terminal_immediate (store : List (String × JobRecord))
    (reg : Registry) (client : Nat) (runID : String) (u : JobRecord)
    (hb : runID ≠ "broadcast") (hk : runID ≠ BROADCAST_KEY)
    (hget : mapGet store runID = some u)
    (hterm : u.status = "completed" ∨ u.status = "error") :
    streamOpen store reg client runID = ⟨[u], true, reg⟩ := by
  have ht : expressTerminal u.status = true := by
    rcases hterm with h | h <;> simp [expressTerminal, h]
  simp [streamOpen, hb, hk, hget, ht]

/-- C2 witness: a store holding a completed record for `"j"`; the freshly
opened stream gets it and closes with the registry untouched. -/
theorem C2_witness :
    streamOpen [("j", ⟨"completed", some "a", none⟩)] [("other", [7])] 0 "j"
      = ⟨[⟨"completed", some "a", none⟩], true, [("other", [7])]⟩ :=
  C2_stream_open_terminal_immediate [("j", ⟨"completed", some "a", none⟩)]
    [("other", [7])] 0 "j" ⟨"completed", some "a", none⟩
    (by decide) (by decide) rfl (Or.inl rfl)

/-- C3 (counterexample): the claim "a request with no resolvable job
identifier is answered with an HTTP 400-equivalent error" is false for the
Express variant: a body with no identifier at all is treated as broadcast
and answered with HTTP 200 / `success: true` (nothing is stored). -/
theorem C3_counterexample :
    (handleUpdate [] [] ⟨none, none, none, none⟩).httpStatus = 200 ∧
    (handleUpdate [] [] ⟨none, none, none, none⟩).httpStatus ≠ 400 ∧
    (handleUpdate [] [] ⟨none, none, none, none⟩).success = true ∧
    (handleUpdate [] [] ⟨none, none, none, none⟩).store = [] := by
  refine ⟨rfl, by decide, rfl, rfl⟩

/-- C3 (amended): when no job identifier is resolvable, the edge-function
variant rejects with HTTP 400 and stores nothing, while the Express variant
(which resolves only `runID`) instead treats the request as a broadcast:
it responds HTTP 200 / `success: true` and stores nothing in the Job
Store. -/
theorem C3_missing_id_behavior :
    (∀ (store : List (String × EdgeRecord)) (body : EdgeBody),
      strTruthy (jsOrOpt body.runID body.runId) = false →
      edgeHandleUpdate store body = ⟨store, none, ⟨400, some "runID is required"⟩⟩) ∧
    (∀ (store : List (String × JobRecord)) (reg : Registry) (body : UpdateBody),
      strTruthy body.runID = false →
      (handleUpdate store reg body).store = store ∧
      (handleUpdate store reg body).httpStatus = 200 ∧
      (handleUpdate store reg body).success = true) := by
  constructor
  · intro store body h
    simp [edgeHandleUpdate, h]
  · intro store reg body h
    refine ⟨?_, rfl, rfl⟩
    simp [handleUpdate, h]

/-- C3 witness: applies both halves at an empty body. -/
theorem C3_witness :
    edgeHandleUpdate [] ⟨none, none, none, none, none, none, none, none⟩
      = ⟨[], none, ⟨400, some "runID is required"⟩⟩ ∧
    (handleUpdate [] [] ⟨none, none, some "completed", some "a"⟩).store = [] :=
  ⟨C3_missing_id_behavior.1 [] ⟨none, none, none, none, none, none, none, none⟩ rfl,
   (C3_missing_id_behavior.2 [] [] ⟨none, none, some "completed", some "a"⟩ rfl).1⟩

/-- C4: the client poll loop uses a fixed 2-second interval and a budget of
300 attempts; any error it surfaces is exactly the distinct timeout message
(so a backend-reported error status never escapes the loop); if no attempt
within the budget is accepted the result is the timeout error; and failed
attempts are swallowed — the first accepted attempt within the budget
yields that answer even after arbitrarily many earlier failures. -/
theorem C4_poll_budget_timeout :
    (POLL_INTERVAL_MS = 2000 ∧ MAX_POLL_ATTEMPTS = 300) ∧
    (∀ (f : Nat → PollOutcome) (e : String),
      pollForResult f = Except.error e → e = TIMEOUT_MSG) ∧
    (∀ f : Nat → PollOutcome,
      (∀ i, i < MAX_POLL_ATTEMPTS → pollAttempt (f i) = none) →
      pollForResult f = Except.error TIMEOUT_MSG) ∧
    (∀ (f : Nat → PollOutcome) (k : Nat) (a : String),
      k < MAX_POLL_ATTEMPTS → (∀ i, i < k → pollAttempt (f i) = none) →
      pollAttempt (f k) = some a → pollForResult f = Except.ok a) := by
  refine ⟨⟨rfl, rfl⟩, ?_, ?_, ?_⟩
  · intro f e h
    exact pollLoop_error_msg f MAX_POLL_ATTEMPTS 0 e h
  · intro f h
    exact pollLoop_all_fail f MAX_POLL_ATTEMPTS 0
      (fun j _ hj => h j (by omega))
  · intro f k a hk hnone hsome
    exact pollLoop_first_success f MAX_POLL_ATTEMPTS 0 k a hk
      (fun j _ hj => hnone j (by omega)) (by simpa using hsome)

/-- C4 witness: a stream whose first attempt is a network failure and whose
second is an accepted completion yields the answer; a stream of nothing but
network failures yields the timeout error. -/
theorem C4_witness :
    pollForResult (fun i => if i = 0 then PollOutcome.netFail
      else PollOutcome.resp "completed" (some "ans") none) = Except.ok "ans" ∧
    pollForResult (fun _ => PollOutcome.netFail) = Except.error TIMEOUT_MSG :=
  ⟨C4_poll_budget_timeout.2.2.2
      (fun i => if i = 0 then PollOutcome.netFail
        else PollOutcome.resp "completed" (some "ans") none) 1 "ans"
      (by decide)
      (by intro i hi; interval_cases i; rfl)
      rfl,
   C4_poll_budget_timeout.2.2.1 (fun _ => PollOutcome.netFail)
      (fun i _ => rfl)⟩

/-- C5: the polling status endpoints return the stored update document when
one exists and the default pending record when none exists (in particular
after the record was deleted), the read leaves the Job Store unchanged, and
the grace-period deletion scheduled by Update Ingress on a terminal status
is 60 seconds in the Express variant and 5 minutes (300000 ms) in the
edge-function variant. -/
theorem C5_status_read_contract :
    (∀ (store : List (String × JobRecord)) (j : String) (u : JobRecord),
      mapGet store j = some u → statusHandler store j = (u, store)) ∧
    (∀ (store : List (String × JobRecord)) (j : String),
      mapGet store j = none → statusHandler store j = (pendingRecord, store)) ∧
    (∀ (store : List (String × JobRecord)) (j : String),
      (statusHandler store j).2 = store) ∧
    (∀ (store : List (String × JobRecord)) (j : String),
      (statusHandler (mapDelete store j) j).1 = pendingRecord) ∧
    (∀ (store : List (String × EdgeRecord)) (j : String) (u : EdgeRecord),
      mapGet store j = some u → edgeStatusHandler store j = (u, store)) ∧
    (∀ (store : List (String × EdgeRecord)) (j : String),
      mapGet store j = none → edgeStatusHandler store j = (edgePendingRecord, store)) ∧
    (∀ (store : List (String × JobRecord)) (reg : Registry) (body : UpdateBody)
      (j : String), body.runID = some j → j ≠ "" →
      expressTerminal (statusOrDefault body.status body.answer) = true →
      (handleUpdate store reg body).cleanup = some (j, 60000)) ∧
    (∀ (store : List (String × EdgeRecord)) (body : EdgeBody) (j : String),
      jsOrOpt body.runID body.runId = some j → j ≠ "" →
      strTruthy body.status = true →
      (body.status.getD "" = "completed" ∨ body.status.getD "" = "error") →
      (edgeHandleUpdate store body).cleanup = some (j, 300000)) := by
  refine ⟨?_, ?_, ?_, ?_, ?_, ?_, ?_, ?_⟩
  · intro store j u h; simp [statusHandler, h]
  · intro store j h; simp [statusHandler, h]
  · intro store j; cases h : mapGet store j <;> simp [statusHandler, h]
  · intro store j; simp [statusHandler, mapGet_mapDelete_self]
  · intro store j u h; simp [edgeStatusHandler, h]
  · intro store j h; simp [edgeStatusHandler, h]
  · intro store reg body j hrun hj hterm
    have htr : strTruthy (some j) = true := by simp [strTruthy, hj]
    simp [handleUpdate, hrun, htr, hterm]
  · intro store body j hrun hj hst hterm
    have htr : strTruthy (jsOrOpt body.runID body.runId) = true := by
      simp [hrun, strTruthy, hj]
    have htrj : strTruthy (some j) = true := by simp [strTruthy, hj]
    rcases hterm with h | h <;>
      simp [edgeHandleUpdate, htr, hst, hrun, h, htrj]

/-- C5 witness: concrete reads before and after a deletion, and the two
scheduled cleanup delays. -/
theorem C5_witness :
    statusHandler [("j", ⟨"completed", some "a", none⟩)] "j"
      = (⟨"completed", some "a", none⟩, [("j", ⟨"completed", some "a", none⟩)]) ∧
    (statusHandler (mapDelete [("j", (⟨"completed", some "a", none⟩ : JobRecord))] "j") "j").1
      = pendingRecord ∧
    (handleUpdate [] [] ⟨some "j", none, some "completed", some "a"⟩).cleanup
      = some ("j", 60000) ∧
    (edgeHandleUpdate [] ⟨some "j", none, none, none, some "error", none, none, some "boom"⟩).cleanup
      = some ("j", 300000) :=
  ⟨C5_status_read_contract.1 [("j", ⟨"completed", some "a", none⟩)] "j"
      ⟨"completed", some "a", none⟩ rfl,
   C5_status_read_contract.2.2.2.1 [("j", ⟨"completed", some "a", none⟩)] "j",
   C5_status_read_contract.2.2.2.2.2.2.1 [] [] ⟨some "j", none, some "completed", some "a"⟩
      "j" rfl (by decide) rfl,
   C5_status_read_contract.2.2.2.2.2.2.2 []
      ⟨some "j", none, none, none, some "error", none, none, some "boom"⟩ "j"
      rfl (by decide) rfl (Or.inr rfl)⟩

/-- C6 (counterexample): the claim "a request with a resolvable job
identifier but no explicit status is not rejected" is false for the
edge-function variant: `{runID: "r", answer: "a"}` without a status is
rejected with HTTP 400 (`status is required`) and nothing is stored. -/
theorem C6_counterexample :
    (edgeHandleUpdate [] ⟨some "r", none, none, none, none, some "a", none, none⟩).response.httpStatus
      = 400 ∧
    (edgeHandleUpdate [] ⟨some "r", none, none, none, none, some "a", none, none⟩).response.errorMsg
      = some "status is required" ∧
    (edgeHandleUpdate [] ⟨some "r", none, none, none, none, some "a", none, none⟩).store = [] :=
  ⟨rfl, rfl, rfl⟩

/-- C6 (amended): only the Express variant accepts a missing status —
there it is inferred as `completed` when an answer is supplied and
`pending` otherwise, and the inferred status is what is stored and carried
by every fanned-out payload; the edge-function variant rejects a missing
status with HTTP 400 and stores nothing. -/
theorem C6_inferred_status :
    (∀ (store : List (String × JobRecord)) (reg : Registry) (body : UpdateBody)
      (j : String), body.runID = some j → j ≠ "" → strTruthy body.status = false →
      (handleUpdate store reg body).httpStatus = 200 ∧
      mapGet (handleUpdate store reg body).store j
        = some ⟨if strTruthy body.answer then "completed" else "pending",
            body.answer, body.pipelineID⟩ ∧
      ∀ d ∈ (handleUpdate store reg body).delivered,
        d.2.1.status = (if strTruthy body.answer then "completed" else "pending")) ∧
    (∀ (store : List (String × EdgeRecord)) (body : EdgeBody),
      strTruthy (jsOrOpt body.runID body.runId) = true →
      strTruthy body.status = false →
      edgeHandleUpdate store body = ⟨store, none, ⟨400, some "status is required"⟩⟩) := by
  constructor
  · intro store reg body j hrun hj hst
    have htr : strTruthy (some j) = true := by simp [strTruthy, hj]
    have hdef : statusOrDefault body.status body.answer
        = (if strTruthy body.answer then "completed" else "pending") := by
      simp [statusOrDefault, hst]
    refine ⟨rfl, ?_, ?_⟩
    · have := C1_last_writer_wins store reg body j hrun hj
      rw [this, hdef]
    · intro d hd
      simp only [handleUpdate, List.mem_map] at hd
      obtain ⟨c, _, hc⟩ := hd
      rw [← hc]
      simp [mkPayload, hdef]
  · intro store body hrun hst
    simp [edgeHandleUpdate, hrun, hst]

/-- C6 witness: Express body with an answer and no status stores a
`completed` record; edge-function body with an answer and no status is
rejected. -/
theorem C6_witness :
    mapGet (handleUpdate [] [] ⟨some "r", none, none, some "a"⟩).store "r"
      = some ⟨"completed", some "a", none⟩ ∧
    edgeHandleUpdate [] ⟨some "r", none, none, none, none, some "b", none, none⟩
      = ⟨[], none, ⟨400, some "status is required"⟩⟩ :=
  ⟨(C6_inferred_status.1 [] [] ⟨some "r", none, none, some "a"⟩ "r" rfl (by decide) rfl).2.1,
   C6_inferred_status.2 [] ⟨some "r", none, none, none, none, some "b", none, none⟩ rfl rfl⟩

/-- C7: an ingress update without a job identifier is delivered, unclosed,
to exactly the clients registered on the reserved broadcast key, is not
stored in the Job Store, and leaves the whole subscriber registry intact
(broadcast listeners stay registered even for terminal statuses); a
job-specific ingress update with terminal status is delivered to exactly
that job's clients with the close flag set, and the job's registry entry is
removed. -/
theorem C7_broadcast_vs_job_specific :
    (∀ (store : List (String × JobRecord)) (reg : Registry) (body : UpdateBody),
      strTruthy body.runID = false →
      (handleUpdate store reg body).store = store ∧
      (handleUpdate store reg body).registry = reg ∧
      (handleUpdate store reg body).delivered
        = (registryGet reg BROADCAST_KEY).map (fun c => (c, mkPayload body, false)) ∧
      (handleUpdate store reg body).cleanup = none) ∧
    (∀ (store : List (String × JobRecord)) (reg : Registry) (body : UpdateBody)
      (j : String), body.runID = some j → j ≠ "" →
      expressTerminal (statusOrDefault body.status body.answer) = true →
      (handleUpdate store reg body).delivered
        = (registryGet reg j).map (fun c => (c, mkPayload body, true)) ∧
      (handleUpdate store reg body).registry = mapDelete reg j) := by
  constructor
  · intro store reg body h
    refine ⟨?_, ?_, ?_, ?_⟩ <;> simp [handleUpdate, h]
  · intro store reg body j hrun hj hterm
    have htr : strTruthy (some j) = true := by simp [strTruthy, hj]
    constructor <;> simp [handleUpdate, hrun, htr, hterm]

/-- C7 witness: a broadcast completion reaches broadcast listeners and
leaves them registered; a job-specific completion reaches the job's
listener with the close flag and removes its registry entry. -/
theorem C7_witness :
    (handleUpdate [] [(BROADCAST_KEY, [3, 4]), ("j", [5])]
        ⟨none, none, some "completed", some "a"⟩).registry
      = [(BROADCAST_KEY, [3, 4]), ("j", [5])] ∧
    (handleUpdate [] [(BROADCAST_KEY, [3, 4]), ("j", [5])]
        ⟨none, none, some "completed", some "a"⟩).delivered
      = [(3, ⟨"completed", some "a", none, none⟩, false),
         (4, ⟨"completed", some "a", none, none⟩, false)] ∧
    (handleUpdate [] [(BROADCAST_KEY, [3, 4]), ("j", [5])]
        ⟨some "j", none, some "error", none⟩).delivered
      = [(5, ⟨"error", none, none, some "j"⟩, true)] ∧
    (handleUpdate [] [(BROADCAST_KEY, [3, 4]), ("j", [5])]
        ⟨some "j", none, some "error", none⟩).registry
      = [(BROADCAST_KEY, [3, 4])] := by
  refine ⟨(C7_broadcast_vs_job_specific.1 [] [(BROADCAST_KEY, [3, 4]), ("j", [5])]
      ⟨none, none, some "completed", some "a"⟩ rfl).2.1, ?_, ?_, ?_⟩
  · rw [(C7_broadcast_vs_job_specific.1 [] [(BROADCAST_KEY, [3, 4]), ("j", [5])]
      ⟨none, none, some "completed", some "a"⟩ rfl).2.2.1]
    rfl
  · rw [(C7_broadcast_vs_job_specific.2 [] [(BROADCAST_KEY, [3, 4]), ("j", [5])]
      ⟨some "j", none, some "error", none⟩ "j" rfl (by decide) rfl).1]
    rfl
  · rw [(C7_broadcast_vs_job_specific.2 [] [(BROADCAST_KEY, [3, 4]), ("j", [5])]
      ⟨some "j", none, some "error", none⟩ "j" rfl (by decide) rfl).2]
    rfl

/-- C8 (counterexample): the claim "everywhere a status is compared against
the terminal states the comparison is case-insensitive and
separator-insensitive with synonyms" is false: the `part_003` poll loop
does accept `'Done'` as completed, but the Express ingress treats `'Done'`
differently from `'completed'` — with the same subscriber, `'Done'` leaves
the connection open and the registry entry in place while `'completed'`
closes the connection and removes the entry. -/
theorem C8_counterexample :
    part3IsCompleted (part3NormalizedStatus (some "Done")) = true ∧
    (handleUpdate [] [("j", [0])] ⟨some "j", none, some "Done", some "a"⟩).registry
      = [("j", [0])] ∧
    (handleUpdate [] [("j", [0])] ⟨some "j", none, some "Done", some "a"⟩).delivered
      = [(0, ⟨"Done", some "a", none, some "j"⟩, false)] ∧
    (handleUpdate [] [("j", [0])] ⟨some "j", none, some "completed", some "a"⟩).registry
      = [] ∧
    (handleUpdate [] [("j", [0])] ⟨some "j", none, some "completed", some "a"⟩).delivered
      = [(0, ⟨"completed", some "a", none, some "j"⟩, true)] := by
  refine ⟨rfl, rfl, rfl, rfl, rfl⟩

/-- C8 (amended): only the client-side comparisons are tolerant — the
`part_003` poll loop lowercases the status and accepts the synonyms
(`complete`, `done`, `success` as completed; `failed`, `failure` as error),
and the SSE-variant trigger classification lowercases, trims and strips
separators for its in-progress check — whereas the server-side comparisons
(Express ingress fan-out and teardown, and the stream-open terminal check)
use exact `'completed'`/`'error'` string equality, so a status such as
`'Done'` is not treated as terminal by the server. -/
theorem C8_comparison_sites :
    (part3IsCompleted (part3NormalizedStatus (some "Done")) = true ∧
     part3IsCompleted (part3NormalizedStatus (some "SUCCESS")) = true ∧
     part3IsCompleted (part3NormalizedStatus (some "Complete")) = true ∧
     part3IsError (part3NormalizedStatus (some "Failed")) = true ∧
     part3IsError (part3NormalizedStatus (some "FAILURE")) = true) ∧
    (sseIsInProgress (some "In-Progress") = true ∧
     sseIsInProgress (some "in_progress") = true ∧
     sseIsErrorStatus (some " FAILED ") = true) ∧
    (expressTerminal "Done" = false ∧ expressTerminal "done" = false ∧
     expressTerminal "success" = false ∧ expressTerminal "completed" = true ∧
     expressTerminal "error" = true) ∧
    (∀ (store : List (String × JobRecord)) (reg : Registry) (body : UpdateBody),
      expressTerminal (statusOrDefault body.status body.answer) = false →
      (handleUpdate store reg body).registry = reg ∧
      ∀ d ∈ (handleUpdate store reg body).delivered, d.2.2 = false) ∧
    (∀ (store : List (String × JobRecord)) (reg : Registry) (client : Nat)
      (j : String) (u : JobRecord), j ≠ "broadcast" → j ≠ BROADCAST_KEY →
      mapGet store j = some u → expressTerminal u.status = false →
      (streamOpen store reg client j).closed = false ∧
      (streamOpen store reg client j).registry = registryAdd reg j client) := by
  refine ⟨⟨rfl, rfl, rfl, rfl, rfl⟩, ⟨rfl, rfl, rfl⟩, ⟨rfl, rfl, rfl, rfl, rfl⟩, ?_, ?_⟩
  · intro store reg body hterm
    constructor
    · simp [handleUpdate, hterm]
    · intro d hd
      simp only [handleUpdate, List.mem_map] at hd
      obtain ⟨c, _, hc⟩ := hd
      rw [← hc]
      simp [hterm]
  · intro store reg client j u hb hk hget hterm
    constructor <;> simp [streamOpen, hb, hk, hget, hterm]

/-- C8 witness: an ingress update with status `'Done'` leaves the registry
untouched and its delivery unclosed, and a stream opened onto a stored
`'Done'` record stays open and registers the client. -/
theorem C8_witness :
    (handleUpdate [] [("j", [0])] ⟨some "j", none, some "Done", none⟩).registry
      = [("j", [0])] ∧
    (streamOpen [("j", ⟨"Done", some "a", none⟩)] [] 1 "j").closed = false ∧
    (streamOpen [("j", ⟨"Done", some "a", none⟩)] [] 1 "j").registry
      = [("j", [1])] :=
  ⟨(C8_comparison_sites.2.2.2.1 [] [("j", [0])] ⟨some "j", none, some "Done", none⟩ rfl).1,
   (C8_comparison_sites.2.2.2.2 [("j", ⟨"Done", some "a", none⟩)] [] 1 "j"
      ⟨"Done", some "a", none⟩ (by decide) (by decide) rfl rfl).1,
   (C8_comparison_sites.2.2.2.2 [("j", ⟨"Done", some "a", none⟩)] [] 1 "j"
      ⟨"Done", some "a", none⟩ (by decide) (by decide) rfl rfl).2⟩

/-- C9 (counterexample): the claim "when the job identifier was tracked,
the completion handler mutates the provisional message in place, appending
only when it cannot be correlated" is false: with `r1` tracked to the
provisional message 1, a completed update for `r1` leaves message 1 exactly
as it was ("Working on it…") and appends the answer as a brand-new
assistant message. -/
theorem C9_counterexample :
    (ChatState.mk
      [⟨1, "assistant", "Working on it…", some ⟨some "r1", none, some "in_progress"⟩⟩]
      false [("r1", 1)] ["r1"]).pendingJobIds = [("r1", 1)] ∧
    (handleSSEUpdate (fun _ => none) 2
      ⟨[⟨1, "assistant", "Working on it…", some ⟨some "r1", none, some "in_progress"⟩⟩],
        false, [("r1", 1)], ["r1"]⟩
      "r1" ⟨"completed", some "done", none, none⟩).messages.map
        (fun m => (m.id, m.content))
      = [(1, "Working on it…"), (2, "done")] := by
  refine ⟨rfl, rfl⟩

/-- C9 (amended): the completion handler never mutates an existing message:
for every state and update it leaves every already-present message
unchanged, appends exactly one new assistant turn carrying the completion,
and—when the status is terminal—drops the job identifier from the tracked
pending map and active subscription set; whether the job identifier was
tracked makes no difference to the message list. -/
theorem C9_always_append (jsonParse : String → Option (List String)) (newId : Nat)
    (state : ChatState) (jobId : String) (update : SSEUpdate) :
    (handleSSEUpdate jsonParse newId state jobId update).messages.take
        state.messages.length = state.messages ∧
    (handleSSEUpdate jsonParse newId state jobId update).messages.length
        = state.messages.length + 1 ∧
    ((handleSSEUpdate jsonParse newId state jobId update).messages.getLast?).map
        (fun m => (m.id, m.role)) = some (newId, "assistant") ∧
    (updateIsTerminal update.status = true →
      (handleSSEUpdate jsonParse newId state jobId update).pendingJobIds
        = state.pendingJobIds.filter (fun p => p.1 ≠ jobId) ∧
      (handleSSEUpdate jsonParse newId state jobId update).activeSubscriptions
        = state.activeSubscriptions.filter (fun j => j ≠ jobId)) := by
  refine ⟨?_, ?_, ?_, ?_⟩
  · simp [handleSSEUpdate, List.take_left]
  · simp [handleSSEUpdate]
  · simp [handleSSEUpdate]
  · intro hterm
    constructor <;> simp [handleSSEUpdate, hterm]

/-- C9 witness: instantiates the always-append theorem on a tracked
in-progress job. -/
theorem C9_witness :
    (handleSSEUpdate (fun _ => none) 5
      ⟨[⟨1, "assistant", "Working on it…", some ⟨some "r9", none, some "in_progress"⟩⟩],
        false, [("r9", 1)], ["r9"]⟩
      "r9" ⟨"completed", some "fine", none, none⟩).messages.length = 2 ∧
    (handleSSEUpdate (fun _ => none) 5
      ⟨[⟨1, "assistant", "Working on it…", some ⟨some "r9", none, some "in_progress"⟩⟩],
        false, [("r9", 1)], ["r9"]⟩
      "r9" ⟨"completed", some "fine", none, none⟩).pendingJobIds = [] := by
  have h := C9_always_append (fun _ => none) 5
    ⟨[⟨1, "assistant", "Working on it…", some ⟨some "r9", none, some "in_progress"⟩⟩],
      false, [("r9", 1)], ["r9"]⟩
    "r9" ⟨"completed", some "fine", none, none⟩
  exact ⟨h.2.1, by rw [(h.2.2.2 rfl).1]; rfl⟩

/-- C10: a polled update whose status is `completed` but whose answer is
missing or empty is not accepted — the loop moves on to the next attempt —
and when no attempt within the budget is accepted the result is the
timeout error; conversely a successful result can only come from an attempt
whose response had status exactly `completed` and a non-empty answer, so a
job that completes with an empty answer is never reported as a success. -/
theorem C10_empty_answer_not_success :
    (pollAttempt (PollOutcome.resp "completed" none none) = none ∧
     ∀ e, pollAttempt (PollOutcome.resp "completed" (some "") e) = none) ∧
    (∀ (f : Nat → PollOutcome) (fuel i : Nat), pollAttempt (f i) = none →
      pollLoop f (fuel + 1) i = pollLoop f fuel (i + 1)) ∧
    (∀ f : Nat → PollOutcome,
      (∀ i, i < MAX_POLL_ATTEMPTS → pollAttempt (f i) = none) →
      pollForResult f = Except.error TIMEOUT_MSG) ∧
    (∀ (f : Nat → PollOutcome) (a : String), pollForResult f = Except.ok a →
      ∃ i, i < MAX_POLL_ATTEMPTS ∧
        ∃ e, f i = PollOutcome.resp "completed" (some a) e ∧ a ≠ "") := by
  refine ⟨⟨rfl, fun e => rfl⟩, ?_, ?_, ?_⟩
  · intro f fuel i h
    simp [pollLoop, h]
  · intro f h
    exact pollLoop_all_fail f MAX_POLL_ATTEMPTS 0 (fun j _ hj => h j (by omega))
  · intro f a h
    obtain ⟨j, _, hj2, hj3⟩ := pollLoop_ok_inv f MAX_POLL_ATTEMPTS 0 a h
    obtain ⟨e, he, hne⟩ := pollAttempt_some_inv (f j) a hj3
    exact ⟨j, by omega, e, he, hne⟩

/-- C10 witness: a job that keeps reporting `completed` with an empty
answer for the whole budget ends in the timeout error, not a success. -/
theorem C10_witness :
    pollForResult (fun _ => PollOutcome.resp "completed" (some "") none)
      = Except.error TIMEOUT_MSG :=
  C10_empty_answer_not_success.2.2.1
    (fun _ => PollOutcome.resp "completed" (some "") none) (fun _ _ => rfl)

end ChatOps
